import Mathlib

/-!
Shallow embedding of the core of the `rust_web` question/answer backend
(chapters 8-10 of the repository): the persistent store for questions and
answers, the ownership-gated route handlers, pagination extraction, the
session token codec and the external moderation client.

The PostgreSQL-backed store is modelled as an explicit in-memory state: the
`questions` and `answers` tables are lists of rows in table order, and each
SQL statement from `src/chapter_10/src/store.rs` is translated to an explicit
state transformer.  Fallible operations return `Except Error` mirroring the
`handle_errors::Error` enum; a Rust `panic!`/`expect` is represented by the
`panicked` constructor of `HandlerOutcome`.
-/

/-- `handle_errors::APILayerError` from `chapter_09/handle-errors/src/lib.rs`:
status code and message extracted from the moderation API error response. -/
structure APILayerError where
  status : Nat
  message : String
  deriving DecidableEq, Repr

/-- Distinguishes the sqlx errors relevant here: `fetch_one` on an empty
result set yields `RowNotFound`; a violated FOREIGN KEY yields a database
constraint error. -/
inductive DBError where
  | rowNotFound
  | foreignKeyViolation
  deriving DecidableEq, Repr

/-- The `handle_errors::Error` enum of `chapter_09/handle-errors/src/lib.rs`
(payloads that the claims do not inspect are dropped). -/
inductive Error where
  | ParseError
  | MissingParameters
  | WrongPassword
  | CannotDecryptToken
  | Unauthorized
  | ArgonLibraryError
  | DatabaseQueryError (e : DBError)
  | ReqwestAPIError
  | MiddlewareReqwestAPIError
  | ClientError (e : APILayerError)
  | ServerError (e : APILayerError)
  deriving DecidableEq, Repr

/-- A row of the `questions` table: `questions(id, title, content, tags,
account_id)` (schema from spec section 6).  `tags` is a nullable array column
and `account_id` is nullable (an INSERT that omits the column stores NULL). -/
structure QuestionRow where
  id : Int
  title : String
  content : String
  tags : Option (List String)
  account_id : Option Int
  deriving DecidableEq, Repr

/-- A row of the `answers` table: `answers(id, content, question_id,
account_id)`. -/
structure AnswerRow where
  id : Int
  content : String
  question_id : Int
  account_id : Int
  deriving DecidableEq, Repr

/-- The `Question` value produced by the row mappers in `store.rs`
(`id, title, content, tags`). -/
structure Question where
  id : Int
  title : String
  content : String
  tags : Option (List String)
  deriving DecidableEq, Repr

/-- `NewQuestion`: the payload of a question creation request. -/
structure NewQuestion where
  title : String
  content : String
  tags : Option (List String)
  deriving DecidableEq, Repr

/-- `NewAnswer`: the payload of an answer creation request. -/
structure NewAnswer where
  content : String
  question_id : Int
  deriving DecidableEq, Repr

/-- The database state behind the `Store` of `chapter_10/src/store.rs`:
both tables in table order plus the sequences generating fresh ids. -/
structure Store where
  questions : List QuestionRow
  answers : List AnswerRow
  nextQuestionId : Int
  nextAnswerId : Int
  deriving DecidableEq, Repr

/-- Row mapper used by `get_questions`/`add_question`/`update_question`:
builds a `Question` from the row columns `id, title, content, tags`. -/
def rowToQuestion (r : QuestionRow) : Question :=
  ⟨r.id, r.title, r.content, r.tags⟩

/-- `Store::get_questions`: `SELECT * from questions LIMIT $1 OFFSET $2`
with `limit` bound to an `Option<u32>` (binding NULL removes the limit) and
`offset` to a `u32`: skip `offset` rows, then return up to `limit` rows. -/
def Store.get_questions (st : Store) (limit : Option Nat) (offset : Nat) :
    Except Error (List Question) :=
  match limit with
  | none => Except.ok ((st.questions.drop offset).map rowToQuestion)
  | some l => Except.ok (((st.questions.drop offset).take l).map rowToQuestion)

/-- `Store::add_question`: `INSERT INTO questions (title, content, tags)
VALUES ($1, $2, $3) RETURNING id, title, content, tags`.  The statement's
column list omits `account_id`, so the stored row's `account_id` is NULL;
the `account_id` argument of the Rust function is never bound. -/
def Store.add_question (st : Store) (new_question : NewQuestion)
    (account_id : Int) : Store × Except Error Question :=
  let row : QuestionRow :=
    ⟨st.nextQuestionId, new_question.title, new_question.content,
      new_question.tags, none⟩
  (⟨st.questions ++ [row], st.answers, st.nextQuestionId + 1, st.nextAnswerId⟩,
    Except.ok (rowToQuestion row))

/-- Does a row match the dual `id AND account_id` condition?  A NULL
`account_id` column never matches (SQL three-valued comparison). -/
def rowMatches (r : QuestionRow) (id : Int) (account_id : Int) : Bool :=
  r.id == id && r.account_id == some account_id

/-- `Store::update_question`: `UPDATE questions SET title = $1, content = $2,
tags = $3 WHERE id = $4 and account_id = $5 RETURNING id, title, content,
tags`, consumed with `fetch_one`: all matching rows are updated; if no row
matched, `fetch_one` fails with `RowNotFound`, wrapped as
`DatabaseQueryError`. -/
def Store.update_question (st : Store) (question : Question) (id : Int)
    (account_id : Int) : Store × Except Error Question :=
  let newRows := st.questions.map (fun r =>
    if rowMatches r id account_id then
      ⟨r.id, question.title, question.content, question.tags, r.account_id⟩
    else r)
  let st' : Store := ⟨newRows, st.answers, st.nextQuestionId, st.nextAnswerId⟩
  match st.questions.find? (fun r => rowMatches r id account_id) with
  | none => (st', Except.error (Error.DatabaseQueryError DBError.rowNotFound))
  | some r =>
      (st', Except.ok ⟨r.id, question.title, question.content, question.tags⟩)

/-- `Store::delete_question`: `DELETE FROM questions WHERE id = $1 AND
account_id = $2`, run with `execute`; the Rust code maps any successful
execution to `Ok(true)` without inspecting the affected-row count. -/
def Store.delete_question (st : Store) (question_id : Int)
    (account_id : Int) : Store × Except Error Bool :=
  (⟨st.questions.filter (fun r => !(rowMatches r question_id account_id)),
      st.answers, st.nextQuestionId, st.nextAnswerId⟩,
    Except.ok true)

/-- `Store::add_answer`: `INSERT INTO answers (content, question_id,
account_id) VALUES ($1, $2, $3)` — no RETURNING clause — consumed with
`fetch_one` and a row mapper reading a `corresponding_question` column.
When the referenced question exists the row is inserted, but the statement
produces zero result rows, so `fetch_one` fails with `RowNotFound`; when it
does not exist the FOREIGN KEY on `question_id` rejects the insert.  Either
way the call returns `DatabaseQueryError`. -/
def Store.add_answer (st : Store) (new_answer : NewAnswer)
    (account_id : Int) : Store × Except Error AnswerRow :=
  if st.questions.any (fun r => r.id == new_answer.question_id) then
    (⟨st.questions,
        st.answers ++
          [⟨st.nextAnswerId, new_answer.content, new_answer.question_id,
            account_id⟩],
        st.nextQuestionId, st.nextAnswerId + 1⟩,
      Except.error (Error.DatabaseQueryError DBError.rowNotFound))
  else
    (st, Except.error (Error.DatabaseQueryError DBError.foreignKeyViolation))

/-- `Store::is_question_owner`: `SELECT * from questions where id = $1 and
account_id = $2` with `fetch_optional`, returning whether a row exists. -/
def Store.is_question_owner (st : Store) (question_id : Int)
    (account_id : Int) : Bool :=
  st.questions.any (fun r => rowMatches r question_id account_id)

/-- A `Session` as decoded from a token (spec section 3: account identifier
plus the token's time window; the type itself is declared outside the
provided sources, so its fields follow the claims set by `issue_token`). -/
structure Session where
  account_id : Int
  nbf : Nat
  exp : Nat
  deriving DecidableEq, Repr

/-- Outcome of a route handler: a successful reply, a rejected error, or a
Rust panic (`expect`/`unwrap` on the wrong variant). -/
inductive HandlerOutcome (α : Type) where
  | ok (a : α)
  | err (e : Error)
  | panicked (msg : String)
  deriving DecidableEq, Repr

/-- The `update_question` route handler of
`chapter_10/src/routes/question.rs` (the `tokio::join` version).  The
moderation call is abstracted as `moder` (the behaviour of `check_profanity`
for this request).  The handler: ownership probe, then both moderation
checks; if both succeed it runs the conditioned UPDATE; otherwise it replies
with `title.expect_err(...)` — which panics when the title check succeeded
and only the content check failed. -/
def update_question (moder : String → Except Error String) (st : Store)
    (id : Int) (session : Session) (question : Question) :
    Store × HandlerOutcome Question :=
  let account_id := session.account_id
  if st.is_question_owner id account_id then
    match moder question.title, moder question.content with
    | Except.ok title, Except.ok content =>
        let question' : Question := ⟨question.id, title, content, question.tags⟩
        match st.update_question question' id account_id with
        | (st', Except.ok res) => (st', HandlerOutcome.ok res)
        | (st', Except.error e) => (st', HandlerOutcome.err e)
    | Except.error e, _ => (st, HandlerOutcome.err e)
    | Except.ok _, Except.error _ =>
        (st, HandlerOutcome.panicked "Expected API call to have failed here")
  else
    (st, HandlerOutcome.err Error.Unauthorized)

/-- The `delete_question` route handler of
`chapter_10/src/routes/question.rs`: ownership probe, then the conditioned
DELETE, replying with a confirmation string. -/
def delete_question (st : Store) (id : Int) (session : Session) :
    Store × HandlerOutcome String :=
  let account_id := session.account_id
  if st.is_question_owner id account_id then
    match st.delete_question id account_id with
    | (st', Except.ok _) =>
        (st', HandlerOutcome.ok ("Question " ++ toString id ++ " deleted"))
    | (st', Except.error e) => (st', HandlerOutcome.err e)
  else
    (st, HandlerOutcome.err Error.Unauthorized)

/-- The `add_question` route handler of
`chapter_10/src/routes/question.rs`: moderates title then content (first
failure is returned), then inserts the censored question. -/
def add_question (moder : String → Except Error String) (st : Store)
    (session : Session) (new_question : NewQuestion) :
    Store × HandlerOutcome Question :=
  let account_id := session.account_id
  match moder new_question.title with
  | Except.error e => (st, HandlerOutcome.err e)
  | Except.ok title =>
      match moder new_question.content with
      | Except.error e => (st, HandlerOutcome.err e)
      | Except.ok content =>
          match st.add_question ⟨title, content, new_question.tags⟩ account_id with
          | (st', Except.ok q) => (st', HandlerOutcome.ok q)
          | (st', Except.error e) => (st', HandlerOutcome.err e)

/-- The `Pagination` struct of `chapter_08/src/types/pagination.rs`:
optional `limit` and a `u32` `offset`. -/
structure Pagination where
  limit : Option Nat
  offset : Nat
  deriving DecidableEq, Repr

/-- Rust `str::parse::<u32>` on a decimal string: digits only, value below
`2^32`. -/
def parse_u32 (s : String) : Option Nat :=
  match s.toNat? with
  | some n => if n < 4294967296 then some n else none
  | none => none

/-- `extract_pagination` of `chapter_08/src/types/pagination.rs`: requires
BOTH the `limit` and the `offset` keys to be present, parses each as `u32`
(`ParseError` on failure, limit first), and otherwise fails with
`MissingParameters`.  The query-parameter `HashMap` is modelled as an
association list. -/
def extract_pagination (params : List (String × String)) :
    Except Error Pagination :=
  if (params.lookup "limit").isSome && (params.lookup "offset").isSome then
    match parse_u32 (((params.lookup "limit").getD "")) with
    | none => Except.error Error.ParseError
    | some l =>
        match parse_u32 (((params.lookup "offset").getD "")) with
        | none => Except.error Error.ParseError
        | some o => Except.ok ⟨some l, o⟩
  else
    Except.error Error.MissingParameters

/-- The hardcoded symmetric session secret of
`chapter_09/src/routes/authentication.rs`. -/
def session_secret : String := "RANDOM WORDS WINTER MACINTOSH PC"

/-- A paseto local token, modelled as its authenticated-encrypted payload:
the encryption key together with the JSON claims set by `issue_token`
(`account_id`, a not-before instant and an expiry instant).  Decryption with
the right key recovers exactly the claims; any other key fails. -/
structure PasetoToken where
  key : String
  account_id : Int
  nbf : Nat
  exp : Nat
  deriving DecidableEq, Repr

/-- Seconds in the `chrono::Duration::days(1)` used for the expiry. -/
def one_day : Nat := 86400

/-- `issue_token` of `chapter_09/src/routes/authentication.rs`: builds a
paseto token under `session_secret` with expiry `now + 1 day`, not-before
`now`, and the `account_id` claim. -/
def issue_token (now : Nat) (account_id : Int) : PasetoToken :=
  ⟨session_secret, account_id, now, now + one_day⟩

/-- `paseto::tokens::validate_local_token`: authenticates/decrypts under the
given key and checks the time window `nbf <= now <= exp`; on success returns
the JSON claims. -/
def validate_local_token (token : PasetoToken) (key : String) (now : Nat) :
    Option (Int × Nat × Nat) :=
  if token.key = key && token.nbf ≤ now && now ≤ token.exp then
    some (token.account_id, token.nbf, token.exp)
  else
    none

/-- `verify_token` of `chapter_09/src/routes/authentication.rs`: validates
the local token under `session_secret` (any failure maps to
`CannotDecryptToken`) and deserializes the claims into a `Session`. -/
def verify_token (now : Nat) (token : PasetoToken) : Except Error Session :=
  match validate_local_token token session_secret now with
  | none => Except.error Error.CannotDecryptToken
  | some (account_id, nbf, exp) => Except.ok ⟨account_id, nbf, exp⟩

/-- The process environment, as an association list of variable bindings. -/
def EnvMap : Type := List (String × String)

/-- `std::env::var`: `Ok` with the value when the variable is set. -/
def env_var (env : EnvMap) (key : String) : Option String :=
  List.lookup key env

/-- The log-filter read in `chapter_09/src/main.rs`:
`std::env::var("RUST_LOG").unwrap_or_else(|_| "practical_rust_book=info, warp=error".to_owned())`. -/
def main_log_filter (env : EnvMap) : String :=
  match env_var env "RUST_LOG" with
  | some v => v
  | none => "practical_rust_book=info, warp=error"

/-- The environment variables `main` of `chapter_09/src/main.rs` reads at
startup; each is read with a fallback, so none is required for the process
to start. -/
def main_env_reads : List String := ["RUST_LOG"]

/-- Startup of `chapter_09/src/main.rs` as far as the process environment is
concerned: the only environment read is the log filter, which has a default,
so startup completes with that filter for every environment. -/
def main_startup (env : EnvMap) : Option String :=
  some (main_log_filter env)

/-- One attempt of the moderation HTTP POST as seen by the client: either a
transport-level failure, or a received response with its status code, the
parse of its body against the success schema (`censored_content`) and
against the error schema (`message`). -/
inductive HttpAttempt where
  | fail
  | resp (status : Nat) (censored : Option String) (message : Option String)
  deriving DecidableEq, Repr

/-- `reqwest::StatusCode::is_success`: 200..=299. -/
def status_is_success (s : Nat) : Bool := 200 ≤ s && s ≤ 299

/-- `reqwest::StatusCode::is_client_error`: 400..=499. -/
def status_is_client_error (s : Nat) : Bool := 400 ≤ s && s ≤ 499

/-- The `ExponentialBackoff` policy of `check_profanity` is built with
`build_with_max_retries(3)`: up to 3 retries after the initial attempt. -/
def bad_words_max_retries : Nat := 3

/-- The retry loop of `RetryTransientMiddleware` (spec section 4.5: only
transient transport-level failures are retried; any received response
short-circuits retry).  `net i` is what the network does on attempt `i`;
`fuel` is the number of retries still allowed. -/
def send_loop (net : Nat → HttpAttempt) :
    Nat → Nat → Except Unit (Nat × Option String × Option String)
  | fuel, i =>
    match net i with
    | HttpAttempt.resp s c m => Except.ok (s, c, m)
    | HttpAttempt.fail =>
        match fuel with
        | 0 => Except.error ()
        | f + 1 => send_loop net f (i + 1)

/-- `send()` through the retry middleware: first attempt plus up to
`bad_words_max_retries` retries on transport failure. -/
def send_with_retry (net : Nat → HttpAttempt) :
    Except Unit (Nat × Option String × Option String) :=
  send_loop net bad_words_max_retries 0

/-- `check_profanity` of `chapter_10/src/profanity.rs`:
reads `BAD_WORDS_API_KEY` with `unwrap()` (panicking when absent), sends the
POST through the retry middleware (exhausted retries surface as
`MiddlewareReqwestAPIError`), classifies a non-success response by status
class into `ClientError`/`ServerError` (via `transform_error`, whose
`unwrap()` on the error-body parse panics when it does not match), and on a
success status parses the body into `BadWordsResponse`, returning
`censored_content` (`ReqwestAPIError` when the parse fails). -/
def check_profanity (env : EnvMap) (net : Nat → HttpAttempt)
    (content : String) : HandlerOutcome String :=
  match env_var env "BAD_WORDS_API_KEY" with
  | none => HandlerOutcome.panicked "called unwrap on a None value"
  | some _ =>
      match send_with_retry net with
      | Except.error _ => HandlerOutcome.err Error.MiddlewareReqwestAPIError
      | Except.ok (status, censored, message) =>
          if !(status_is_success status) then
            match message with
            | none => HandlerOutcome.panicked "called unwrap on a None value"
            | some msg =>
                if status_is_client_error status then
                  HandlerOutcome.err (Error.ClientError ⟨status, msg⟩)
                else
                  HandlerOutcome.err (Error.ServerError ⟨status, msg⟩)
          else
            match censored with
            | some c => HandlerOutcome.ok c
            | none => HandlerOutcome.err Error.ReqwestAPIError

/-! ## Shared helper lemmas -/

/-- The ownership probe is false exactly when no stored row with the given
id is owned by the given account. -/
theorem is_question_owner_false (st : Store) (id acc : Int)
    (h : ∀ r ∈ st.questions, r.id = id → r.account_id ≠ some acc) :
    st.is_question_owner id acc = false := by
  unfold Store.is_question_owner
  rw [List.any_eq_false]
  intro r hr
  simp only [rowMatches, Bool.and_eq_true, beq_iff_eq, not_and]
  intro hid
  intro hacc
  exact h r hr hid hacc

/-- The ownership probe is true when some stored row with the given id is
owned by the given account. -/
theorem is_question_owner_true (st : Store) (id acc : Int)
    (h : ∃ r ∈ st.questions, r.id = id ∧ r.account_id = some acc) :
    st.is_question_owner id acc = true := by
  unfold Store.is_question_owner
  rw [List.any_eq_true]
  obtain ⟨r, hr, hid, hacc⟩ := h
  exact ⟨r, hr, by simp [rowMatches, hid, hacc]⟩

/-! ## Claim theorems -/

/-- C10: `Store::add_answer` never returns a successful `Answer` for any
store state and any input: its INSERT statement returns no rows, while the
code fetches exactly one row from it, so every call resolves to a
database-query error. -/
theorem add_answer_always_fails (st : Store) (new_answer : NewAnswer)
    (account_id : Int) :
    ∃ e, (Store.add_answer st new_answer account_id).2
        = Except.error (Error.DatabaseQueryError e) := by
  unfold Store.add_answer
  split
  · exact ⟨DBError.rowNotFound, rfl⟩
  · exact ⟨DBError.foreignKeyViolation, rfl⟩

/-- C2: the row persisted by `Store::add_question` does NOT carry the
creating account as owner: the INSERT omits the `account_id` column, so the
stored row's `account_id` is NULL, never `some account_id`. -/
theorem add_question_drops_owner (st : Store) (new_question : NewQuestion)
    (account_id : Int) (r : QuestionRow)
    (hmem : r ∈ (Store.add_question st new_question account_id).1.questions)
    (hnew : r ∉ st.questions) :
    r.account_id = none ∧ r.account_id ≠ some account_id := by
  unfold Store.add_question at hmem
  simp only [List.mem_append, List.mem_singleton] at hmem
  rcases hmem with h | h
  · exact absurd h hnew
  · subst h
    exact ⟨rfl, by simp⟩

/-- C2 witness: adding a question to the empty store as account 1 stores a
row owned by nobody. -/
theorem add_question_drops_owner_witness :
    (⟨1, "t", "c", none, none⟩ : QuestionRow).account_id = none
    ∧ (⟨1, "t", "c", none, none⟩ : QuestionRow).account_id ≠ some 1 :=
  add_question_drops_owner ⟨[], [], 1, 1⟩ ⟨"t", "c", none⟩ 1
    ⟨1, "t", "c", none, none⟩ (by decide) (by decide)

/-- C4 counterexample: on the empty store, `Store::delete_question` returns
`Ok(true)` although no row matching the id and the owner was removed (the
table is empty before and after). -/
theorem delete_question_true_without_removal :
    (Store.delete_question ⟨[], [], 1, 1⟩ 1 5).2 = Except.ok true
    ∧ (Store.delete_question ⟨[], [], 1, 1⟩ 1 5).1.questions = [] :=
  ⟨rfl, rfl⟩

/-- C4 amended: `Store::delete_question` removes exactly the rows matching
both the id and the owner, and returns `Ok(true)` whenever the statement
executes, regardless of whether any row was removed. -/
theorem delete_question_spec (st : Store) (question_id account_id : Int) :
    (Store.delete_question st question_id account_id).2 = Except.ok true
    ∧ (∀ r : QuestionRow,
        r ∈ (Store.delete_question st question_id account_id).1.questions
          ↔ r ∈ st.questions ∧ rowMatches r question_id account_id = false) := by
  refine ⟨rfl, fun r => ?_⟩
  unfold Store.delete_question
  simp only [List.mem_filter, Bool.not_eq_true']

/-- C7: `Store::get_questions` returns the table rows in table order with
`offset` rows skipped and at most `limit` rows returned (all remaining rows
when `limit` is absent); on a store seeded with questions 1..5,
`limit = 2, offset = 1` returns exactly questions 2 and 3. -/
theorem get_questions_pagination :
    (∀ (st : Store) (l o : Nat),
        Store.get_questions st (some l) o
          = Except.ok (((st.questions.map rowToQuestion).drop o).take l)
        ∧ Store.get_questions st none o
          = Except.ok ((st.questions.map rowToQuestion).drop o))
    ∧ Store.get_questions
        ⟨[⟨1, "t1", "c1", none, some 1⟩, ⟨2, "t2", "c2", none, some 1⟩,
          ⟨3, "t3", "c3", none, some 1⟩, ⟨4, "t4", "c4", none, some 1⟩,
          ⟨5, "t5", "c5", none, some 1⟩], [], 6, 1⟩ (some 2) 1
        = Except.ok [⟨2, "t2", "c2", none⟩, ⟨3, "t3", "c3", none⟩] := by
  refine ⟨fun st l o => ⟨?_, ?_⟩, by rfl⟩
  · show Except.ok (((st.questions.drop o).take l).map rowToQuestion) = _
    rw [List.map_take, List.map_drop]
  · show Except.ok ((st.questions.drop o).map rowToQuestion) = _
    rw [List.map_drop]

/-- C8: validating a token immediately after `issue_token(account_id)`
succeeds and yields a `Session` whose account identifier is `account_id`
(with the not-before and expiry claims set at issuance). -/
theorem validate_issue_round_trip (now : Nat) (account_id : Int) :
    verify_token now (issue_token now account_id)
      = Except.ok ⟨account_id, now, now + one_day⟩ := by
  unfold verify_token validate_local_token issue_token
  simp

/-- C6 counterexample: a parameter map supplying a numeric `offset` but no
`limit` makes `extract_pagination` fail with `MissingParameters` instead of
succeeding with an absent limit. -/
theorem extract_pagination_offset_only_fails :
    extract_pagination [("offset", "3")]
      = Except.error Error.MissingParameters := by rfl

/-- C6 amended: `extract_pagination` requires BOTH keys; every parameter map
that supplies `offset` but omits `limit` fails with `MissingParameters`. -/
theorem extract_pagination_offset_without_limit
    (params : List (String × String)) (s : String)
    (hoff : params.lookup "offset" = some s)
    (hlim : params.lookup "limit" = none) :
    extract_pagination params = Except.error Error.MissingParameters := by
  unfold extract_pagination
  simp [hlim]

/-- C6 witness: the amended statement at the concrete map `offset=3`. -/
theorem extract_pagination_offset_without_limit_witness :
    extract_pagination [("offset", "3")]
      = Except.error Error.MissingParameters :=
  extract_pagination_offset_without_limit [("offset", "3")] "3" rfl rfl

/-- A store holding question 1 owned by account 7, and a moderation check
that accepts the string "clean title" and rejects everything else with a
422 classification. -/
def store_c3 : Store := ⟨[⟨1, "old title", "old content", none, some 7⟩], [], 2, 1⟩

/-- Moderation behaviour for the C3 scenario: title clean, content
profane. -/
def moder_c3 : String → Except Error String := fun s =>
  if s = "clean title" then Except.ok s
  else Except.error (Error.ClientError ⟨422, "profanity detected"⟩)

/-- C3: when the owner submits an update whose title passes moderation and
whose content fails it, the handler reaches
`title.expect_err("Expected API call to have failed here")` with an `Ok`
title and panics, instead of returning the content check's classified
failure. -/
theorem update_question_panics_on_profane_content :
    moder_c3 "clean title" = Except.ok "clean title"
    ∧ moder_c3 "bad content"
        = Except.error (Error.ClientError ⟨422, "profanity detected"⟩)
    ∧ (update_question moder_c3 store_c3 1 ⟨7, 0, one_day⟩
          ⟨1, "clean title", "bad content", none⟩).2
        = HandlerOutcome.panicked "Expected API call to have failed here" :=
  ⟨rfl, rfl, rfl⟩

/-- C9: startup of the `main` in the sources reads no moderation API key —
the process starts for every environment — and when `BAD_WORDS_API_KEY` is
absent the per-request read inside `check_profanity` panics, so its failure
branch is reachable during request handling. -/
theorem startup_ignores_bad_words_key (env : EnvMap)
    (net : Nat → HttpAttempt) (text : String)
    (h : env_var env "BAD_WORDS_API_KEY" = none) :
    "BAD_WORDS_API_KEY" ∉ main_env_reads
    ∧ main_startup env = some (main_log_filter env)
    ∧ check_profanity env net text
        = HandlerOutcome.panicked "called unwrap on a None value" := by
  refine ⟨by decide, rfl, ?_⟩
  unfold check_profanity
  rw [h]

/-- C9 witness: the empty environment lacks the key, the process still
starts, and a moderation call panics. -/
theorem startup_ignores_bad_words_key_witness :
    "BAD_WORDS_API_KEY" ∉ main_env_reads
    ∧ main_startup [] = some (main_log_filter [])
    ∧ check_profanity [] (fun _ => HttpAttempt.fail) "t"
        = HandlerOutcome.panicked "called unwrap on a None value" :=
  startup_ignores_bad_words_key [] (fun _ => HttpAttempt.fail) "t" rfl

/-- Network behaviour with transport failures on attempts 0, 1 and 2 and a
successful response on attempt 3. -/
def net_three_fails : Nat → HttpAttempt := fun i =>
  if i < 3 then HttpAttempt.fail
  else HttpAttempt.resp 200 (some "clean") none

/-- C5 counterexample: three consecutive transport failures do NOT surface
`Transport`: the policy is built with `build_with_max_retries(3)`, so a
fourth attempt is made and its success returns the censored text.  The
attempt bound is 4 attempts total, not 3. -/
theorem check_profanity_fourth_attempt_succeeds :
    net_three_fails 0 = HttpAttempt.fail
    ∧ net_three_fails 1 = HttpAttempt.fail
    ∧ net_three_fails 2 = HttpAttempt.fail
    ∧ check_profanity [("BAD_WORDS_API_KEY", "k")] net_three_fails "text"
        = HandlerOutcome.ok "clean" :=
  ⟨rfl, rfl, rfl, rfl⟩

/-- C5 amended: `check_profanity` retries only transport-level failures,
bounded at 4 attempts total (one initial attempt plus 3 retries): two
consecutive transport failures followed by a success return the censored
text; four consecutive transport failures surface the transport error
(`MiddlewareReqwestAPIError`); and any received HTTP response — e.g. a 422 —
short-circuits retry and is classified immediately by status class
(`ClientError` with that status). -/
theorem check_profanity_retry_policy (env : EnvMap) (key : String)
    (hkey : env_var env "BAD_WORDS_API_KEY" = some key)
    (net1 net2 net3 : Nat → HttpAttempt) (text c msg : String)
    (m1 : Option String)
    (h10 : net1 0 = HttpAttempt.fail) (h11 : net1 1 = HttpAttempt.fail)
    (h12 : net1 2 = HttpAttempt.resp 200 (some c) m1)
    (h2 : ∀ i, i ≤ 3 → net2 i = HttpAttempt.fail)
    (h30 : net3 0 = HttpAttempt.resp 422 none (some msg)) :
    check_profanity env net1 text = HandlerOutcome.ok c
    ∧ check_profanity env net2 text
        = HandlerOutcome.err Error.MiddlewareReqwestAPIError
    ∧ check_profanity env net3 text
        = HandlerOutcome.err (Error.ClientError ⟨422, msg⟩) := by
  unfold check_profanity send_with_retry bad_words_max_retries
  rw [hkey]
  refine ⟨?_, ?_, ?_⟩
  · rw [send_loop, h10, send_loop, h11, send_loop, h12]
    rfl
  · rw [send_loop, h2 0 (by omega), send_loop, h2 1 (by omega),
      send_loop, h2 2 (by omega), send_loop, h2 3 (by omega)]
  · rw [send_loop, h30]
    rfl

/-- Network succeeding on the third attempt after two transport failures. -/
def net_two_fails : Nat → HttpAttempt := fun i =>
  if i < 2 then HttpAttempt.fail
  else HttpAttempt.resp 200 (some "censored text") none

/-- Network failing at the transport level on every attempt. -/
def net_all_fails : Nat → HttpAttempt := fun _ => HttpAttempt.fail

/-- Network answering 422 immediately with an error body. -/
def net_422 : Nat → HttpAttempt := fun _ =>
  HttpAttempt.resp 422 none (some "api key invalid")

/-- C5 witness: the amended retry policy at concrete network behaviours. -/
theorem check_profanity_retry_policy_witness :
    check_profanity [("BAD_WORDS_API_KEY", "k")] net_two_fails "text"
      = HandlerOutcome.ok "censored text"
    ∧ check_profanity [("BAD_WORDS_API_KEY", "k")] net_all_fails "text"
        = HandlerOutcome.err Error.MiddlewareReqwestAPIError
    ∧ check_profanity [("BAD_WORDS_API_KEY", "k")] net_422 "text"
        = HandlerOutcome.err (Error.ClientError ⟨422, "api key invalid"⟩) :=
  check_profanity_retry_policy [("BAD_WORDS_API_KEY", "k")] "k" rfl
    net_two_fails net_all_fails net_422 "text" "censored text"
    "api key invalid" none rfl rfl rfl (fun i _ => rfl) rfl

/-- When some row matches the dual condition, the conditioned UPDATE
rewrites every matching row and `fetch_one` returns the first match under
the new column values. -/
theorem Store.update_question_found (st : Store) (q : Question)
    (id acc : Int) (r0 : QuestionRow)
    (hr0 : st.questions.find? (fun r => rowMatches r id acc) = some r0) :
    st.update_question q id acc
      = (⟨st.questions.map (fun r =>
            if rowMatches r id acc then
              ⟨r.id, q.title, q.content, q.tags, r.account_id⟩
            else r), st.answers, st.nextQuestionId, st.nextAnswerId⟩,
          Except.ok ⟨r0.id, q.title, q.content, q.tags⟩) := by
  unfold Store.update_question
  rw [hr0]

/-- C1: the `update_question` and `delete_question` handlers are
ownership-gated.  When no stored row with the target id is owned by the
session's account, both fail with `Unauthorized`.  When the session's
account owns the target question and both moderation checks succeed, the
update replies with the censored question and every stored row with that id
and owner carries the new title, content and tags; the delete replies
successfully and no row with that id and owner remains. -/
theorem ownership_gate (moder : String → Except Error String) (st : Store)
    (id : Int) (session : Session) (question : Question) (t c : String) :
    ((∀ r ∈ st.questions, r.id = id → r.account_id ≠ some session.account_id) →
        (update_question moder st id session question).2
            = HandlerOutcome.err Error.Unauthorized
        ∧ (delete_question st id session).2
            = HandlerOutcome.err Error.Unauthorized)
    ∧ ((∃ r ∈ st.questions, r.id = id ∧ r.account_id = some session.account_id) →
        moder question.title = Except.ok t →
        moder question.content = Except.ok c →
        (∃ res, (update_question moder st id session question).2
              = HandlerOutcome.ok res ∧ res.title = t ∧ res.content = c)
        ∧ (∀ r ∈ (update_question moder st id session question).1.questions,
            r.id = id → r.account_id = some session.account_id →
            r.title = t ∧ r.content = c ∧ r.tags = question.tags)
        ∧ (∃ m, (delete_question st id session).2 = HandlerOutcome.ok m)
        ∧ (∀ r ∈ (delete_question st id session).1.questions,
            rowMatches r id session.account_id = false)) := by
  constructor
  · intro h
    have hfalse := is_question_owner_false st id session.account_id h
    constructor
    · simp [update_question, hfalse]
    · simp [delete_question, hfalse]
  · intro hex ht hc
    have htrue := is_question_owner_true st id session.account_id hex
    have hfind : ∃ r0, st.questions.find?
        (fun r => rowMatches r id session.account_id) = some r0 := by
      cases hf : st.questions.find? (fun r => rowMatches r id session.account_id) with
      | some r0 => exact ⟨r0, rfl⟩
      | none =>
          rw [List.find?_eq_none] at hf
          obtain ⟨r, hr, hid, hacc⟩ := hex
          exact absurd (by simp [rowMatches, hid, hacc]) (hf r hr)
    obtain ⟨r0, hr0⟩ := hfind
    have hupd : update_question moder st id session question
        = (⟨st.questions.map (fun r =>
              if rowMatches r id session.account_id then
                ⟨r.id, t, c, question.tags, r.account_id⟩
              else r), st.answers, st.nextQuestionId, st.nextAnswerId⟩,
            HandlerOutcome.ok ⟨r0.id, t, c, question.tags⟩) := by
      simp only [update_question, htrue, if_true, ht, hc]
      rw [Store.update_question_found st ⟨question.id, t, c, question.tags⟩
        id session.account_id r0 hr0]
    have hdel : delete_question st id session
        = (⟨st.questions.filter
              (fun r => !(rowMatches r id session.account_id)),
            st.answers, st.nextQuestionId, st.nextAnswerId⟩,
            HandlerOutcome.ok ("Question " ++ toString id ++ " deleted")) := by
      simp only [delete_question, htrue, if_true, Store.delete_question]
    refine ⟨⟨⟨r0.id, t, c, question.tags⟩, by rw [hupd], rfl, rfl⟩, ?_, ?_, ?_⟩
    · rw [hupd]
      intro r hr hid hacc
      simp only [List.mem_map] at hr
      obtain ⟨r', hr', hmap⟩ := hr
      by_cases hm : rowMatches r' id session.account_id = true
      · rw [if_pos hm] at hmap
        rw [← hmap]
        exact ⟨rfl, rfl, rfl⟩
      · rw [if_neg hm] at hmap
        subst hmap
        exact absurd (by simp [rowMatches, hid, hacc]) hm
    · exact ⟨("Question " ++ toString id ++ " deleted"), by rw [hdel]⟩
    · rw [hdel]
      intro r hr
      simp only [List.mem_filter, Bool.not_eq_true'] at hr
      exact hr.2

/-- A store holding question 1 owned by account 7, for the C1 witness. -/
def store_c1 : Store := ⟨[⟨1, "old t", "old c", none, some 7⟩], [], 2, 1⟩

/-- A moderation check that passes every string through unchanged. -/
def moder_ok : String → Except Error String := fun s => Except.ok s

/-- C1 witness: on `store_c1`, account 8 is rejected with `Unauthorized` by
both mutation handlers, while the owner account 7 updates and deletes
successfully. -/
theorem ownership_gate_witness :
    (update_question moder_ok store_c1 1 ⟨8, 0, 0⟩ ⟨1, "new t", "new c", none⟩).2
        = HandlerOutcome.err Error.Unauthorized
    ∧ (delete_question store_c1 1 ⟨8, 0, 0⟩).2
        = HandlerOutcome.err Error.Unauthorized
    ∧ (∃ res, (update_question moder_ok store_c1 1 ⟨7, 0, 0⟩
            ⟨1, "new t", "new c", none⟩).2 = HandlerOutcome.ok res
        ∧ res.title = "new t" ∧ res.content = "new c")
    ∧ (∃ m, (delete_question store_c1 1 ⟨7, 0, 0⟩).2 = HandlerOutcome.ok m) := by
  have h8 := ownership_gate moder_ok store_c1 1 ⟨8, 0, 0⟩
    ⟨1, "new t", "new c", none⟩ "new t" "new c"
  have h7 := ownership_gate moder_ok store_c1 1 ⟨7, 0, 0⟩
    ⟨1, "new t", "new c", none⟩ "new t" "new c"
  have hno : ∀ r ∈ store_c1.questions, r.id = 1 →
      r.account_id ≠ some (8 : Int) := by decide
  have hyes : ∃ r ∈ store_c1.questions, r.id = 1 ∧
      r.account_id = some (7 : Int) := ⟨⟨1, "old t", "old c", none, some 7⟩,
    by decide, by decide⟩
  exact ⟨(h8.1 hno).1, (h8.1 hno).2, (h7.2 hyes rfl rfl).1,
    (h7.2 hyes rfl rfl).2.2.1⟩
